import Mathlib

/-!
Shallow embedding of `src/api.py` (a Flask backend relaying messages to a
generation provider with a file-search knowledge base, plus a WhatsApp
webhook).  JSON values are modelled by an inductive `Json` with Python
truthiness; the per-sender conversation store is an association list keyed
by a `Json` value (Python dict); the generation provider is an oracle
`GenRequest → Except String String` (exception message or response text),
and each handler records the provider requests it issues so that claims
about whether and with which arguments the provider is called are statable.
Python-level unhandled exceptions (AttributeError on `.get` of a non-dict,
TypeError on iterating a non-iterable, KeyError, pydantic validation of
`types.Part(text=...)`, unhashable dict keys, and a Flask view returning
`None`) are modelled by `Except Unit` / error-carrying results.
-/

set_option autoImplicit false

namespace Webhook3

/-- JSON values (Python objects as parsed by `request.get_json`). Numbers are
modelled as integers; no claim involves fractional numbers. -/
inductive Json where
  | null : Json
  | bool : Bool → Json
  | num : Int → Json
  | str : String → Json
  | arr : List Json → Json
  | obj : List (String × Json) → Json

/-- Python truthiness (`if not payload`, `if not sender`, `or []`). -/
def truthy : Json → Bool
  | .null => false
  | .bool b => b
  | .num n => n != 0
  | .str s => !(s == "")
  | .arr xs => !xs.isEmpty
  | .obj kvs => !kvs.isEmpty

mutual

/-- Structural equality of JSON values (Python `==` as used on dict keys and
on the `type` field; `True == 1` key collisions are not modelled since no
store key is ever a non-string in any reachable path of the handlers). -/
def jsonBeq : Json → Json → Bool
  | .null, .null => true
  | .bool a, .bool b => a == b
  | .num a, .num b => a == b
  | .str a, .str b => a == b
  | .arr a, .arr b => jsonBeqList a b
  | .obj a, .obj b => jsonBeqPairs a b
  | _, _ => false

/-- Elementwise equality of JSON arrays. -/
def jsonBeqList : List Json → List Json → Bool
  | [], [] => true
  | x :: xs, y :: ys => jsonBeq x y && jsonBeqList xs ys
  | _, _ => false

/-- Elementwise equality of JSON object entry lists. -/
def jsonBeqPairs : List (String × Json) → List (String × Json) → Bool
  | [], [] => true
  | (k, v) :: xs, (l, w) :: ys => k == l && jsonBeq v w && jsonBeqPairs xs ys
  | _, _ => false

end

/-- First value bound to key `k` in a JSON object entry list (Python dicts
have unique keys, so first-match lookup agrees with dict lookup). -/
def jsonLookup (k : String) : List (String × Json) → Option Json
  | [] => none
  | (l, v) :: rest => if l == k then some v else jsonLookup k rest

/-- Python `d.get(k)`: `None` default; AttributeError when the receiver is
not a dict. -/
def pyGetOpt (j : Json) (k : String) : Except Unit (Option Json) :=
  match j with
  | .obj kvs => .ok (jsonLookup k kvs)
  | _ => .error ()

/-- Python `d.get(k, default)`; AttributeError when the receiver is not a
dict. -/
def pyGetD (j : Json) (k : String) (d : Json) : Except Unit Json :=
  match j with
  | .obj kvs => .ok ((jsonLookup k kvs).getD d)
  | _ => .error ()

/-- Python `k in j` for a string `k`: key test on dicts, membership on
lists, substring test on strings; TypeError otherwise. -/
def pyContains (j : Json) (k : String) : Except Unit Bool :=
  match j with
  | .obj kvs => .ok (kvs.any (fun kv => kv.1 == k))
  | .arr xs => .ok (xs.any (fun x => jsonBeq x (.str k)))
  | .str s => .ok (decide (2 ≤ ((s.splitOn k).length)))
  | _ => .error ()

/-- Python iteration `for x in j`: list elements, dict keys, characters of a
string; TypeError otherwise. -/
def pyIter (j : Json) : Except Unit (List Json) :=
  match j with
  | .arr xs => .ok xs
  | .obj kvs => .ok (kvs.map (fun kv => Json.str kv.1))
  | .str s => .ok (s.toList.map (fun c => Json.str c.toString))
  | _ => .error ()

mutual

/-- Python `str(x)` of a JSON value, as interpolated by the f-string
building the unsupported-message placeholder. -/
def pyStr : Json → String
  | .null => "None"
  | .bool true => "True"
  | .bool false => "False"
  | .num n => toString n
  | .str s => s
  | .arr xs => "[" ++ String.intercalate ", " (pyReprList xs) ++ "]"
  | .obj kvs => "\x7b" ++ String.intercalate ", " (pyReprPairs kvs) ++ "\x7d"

/-- Python `repr(x)` of a JSON value (strings quoted). -/
def pyRepr : Json → String
  | .null => "None"
  | .bool true => "True"
  | .bool false => "False"
  | .num n => toString n
  | .str s => "\x27" ++ s ++ "\x27"
  | .arr xs => "[" ++ String.intercalate ", " (pyReprList xs) ++ "]"
  | .obj kvs => "\x7b" ++ String.intercalate ", " (pyReprPairs kvs) ++ "\x7d"

/-- `repr` of each element of a JSON array. -/
def pyReprList : List Json → List String
  | [] => []
  | x :: xs => pyRepr x :: pyReprList xs

/-- `repr` of each entry of a JSON object. -/
def pyReprPairs : List (String × Json) → List String
  | [] => []
  | (k, v) :: rest => ("\x27" ++ k ++ "\x27: " ++ pyRepr v) :: pyReprPairs rest

end

/-- Python `str(x)` where `x` may be `None` (absent `.get` result). -/
def pyStrOpt : Option Json → String
  | none => "None"
  | some j => pyStr j

/-- Whether a JSON value is hashable in Python, hence usable as a dict key
(lists and dicts raise TypeError). -/
def jsonHashable : Json → Bool
  | .arr _ => false
  | .obj _ => false
  | _ => true

/-- Validation performed by `types.Part(text=...)` (pydantic field
`text: Optional[str]`): a string or `None` is accepted, anything else
raises a validation error. Python `None` and JSON `null` coincide. -/
def partText : Json → Except Unit (Option String)
  | .null => .ok none
  | .str s => .ok (some s)
  | _ => .error ()

/-- One stored history entry `{'role': ..., 'text': ...}`. The `text` field
is `Option String` because `types.Part` accepts `text=None` and the raw
value is stored back into the history. -/
structure Turn where
  role : String
  text : Option String
deriving DecidableEq

/-- One role-tagged content block (`types.Content` with one `types.Part`). -/
structure GenContent where
  role : String
  text : Option String
deriving DecidableEq

/-- `Turn` to `types.Content` conversion used when rebuilding `contents`
from a stored history. -/
def turnContent (t : Turn) : GenContent :=
  ⟨t.role, t.text⟩

/-- The full argument record of one `client.models.generate_content` call as
assembled by `search_file_store`. -/
structure GenRequest where
  contents : List GenContent
  storeNames : List String
  model : String
  systemInstruction : Option String
deriving DecidableEq

/-- The external generation provider: returns the response text, or the
exception's message when the remote call raises. -/
abbrev GenOracle : Type := GenRequest → Except String String

/-- Environment-derived configuration relevant to the claims:
`FILE_SEARCH_STORE_ID` and `WHATSAPP_VERIFY_TOKEN`. -/
structure AgentConfig where
  storeId : String
  verifyToken : String

/-- `SYSTEM_PROMPT_RESERVAS` from the source. -/
def SYSTEM_PROMPT_RESERVAS : String :=
  "Eres un amable y profesional agente de reservas del hotel. " ++
  "Tu objetivo es responder todas las preguntas de los clientes de manera cortés y útil, " ++
  "utilizando exclusivamente la información proporcionada por la base de conocimiento (FileSearch). " ++
  "Céntrate en información de servicios, disponibilidad, y precios del hotel. " ++
  "Cuando no encuentres un servicio en la documentacion, indica claramente que aun no se cuenta con ese servicio, no menciones que no encuentras ese servicio en la documentacion." ++
  "Siempre mantén un tono de servicio al cliente y anima al usuario a hacer una reserva o continuar su consulta."

/-- `search_file_store`: forwards its arguments as one provider call. -/
def search_file_store (gen : GenOracle) (contents : List GenContent)
    (store_names : List String) (model : String)
    (system_instruction : Option String) : Except String String :=
  gen ⟨contents, store_names, model, system_instruction⟩

/-- The `conversations` dict: sender key (any hashable Python value; in
practice the WhatsApp number string) to history. -/
abbrev ConvStore : Type := List (Json × List Turn)

/-- Python `conversations.get(sender_id, [])`, minus the default. -/
def storeGet : ConvStore → Json → Option (List Turn)
  | [], _ => none
  | (k, v) :: rest, s => if jsonBeq k s then some v else storeGet rest s

/-- Python `conversations[sender_id] = new_history` (replace in place when
the key is present, else append, as dict insertion order does). -/
def storeSet : ConvStore → Json → List Turn → ConvStore
  | [], s, v => [(s, v)]
  | (k, w) :: rest, s, v =>
      if jsonBeq k s then (k, v) :: rest else (k, w) :: storeSet rest s v

/-- Python `conversations.pop(sender_id, None)`: remove the entry if
present, no error if absent. -/
def storeErase : ConvStore → Json → ConvStore
  | [], _ => []
  | (k, w) :: rest, s =>
      if jsonBeq k s then storeErase rest s else (k, w) :: storeErase rest s

/-- Number of entries stored under a given key. -/
def storeCount : ConvStore → Json → Nat
  | [], _ => 0
  | (k, _) :: rest, s => (if jsonBeq k s then 1 else 0) + storeCount rest s

/-- The generic apology returned by `procesar_con_gemini_for_sender` when
the generation call raises. -/
def APOLOGY : String :=
  "Lo siento, ocurrió un problema procesando tu consulta. Intenta nuevamente más tarde."

/-- Result of `procesar_con_gemini_for_sender`: the returned text, the
`conversations` store after the call, and the provider requests issued. -/
structure ProcResult where
  text : String
  convs : ConvStore
  genCalls : List GenRequest

/-- `procesar_con_gemini_for_sender`: rebuild `contents` from the sender's
history, append the new user part, call the provider with the
namespace-prefixed store name; on success append the two new turns to the
history, on exception drop the sender's entry and return the apology.
`Except.error` is an unhandled Python exception (unhashable sender key from
`conversations.get`, or `types.Part` validation), raised before the
`try` block, leaving the store untouched. -/
def procesar_con_gemini_for_sender (cfg : AgentConfig) (gen : GenOracle)
    (conversations : ConvStore) (sender_id : Json) (user_text : Json) :
    Except Unit ProcResult :=
  if jsonHashable sender_id = false then .error () else
  let history_json := (storeGet conversations sender_id).getD []
  match partText user_text with
  | .error _ => .error ()
  | .ok utext =>
    let full_contents : List GenContent :=
      history_json.map turnContent ++ [⟨"user", utext⟩]
    let req : GenRequest :=
      ⟨full_contents, ["fileSearchStores/" ++ cfg.storeId],
       "gemini-2.5-flash", some SYSTEM_PROMPT_RESERVAS⟩
    match search_file_store gen full_contents
        ["fileSearchStores/" ++ cfg.storeId] "gemini-2.5-flash"
        (some SYSTEM_PROMPT_RESERVAS) with
    | .ok respuesta =>
        let new_history := history_json ++
          [⟨"user", utext⟩, ⟨"model", some respuesta⟩]
        .ok ⟨respuesta, storeSet conversations sender_id new_history, [req]⟩
    | .error _ =>
        .ok ⟨APOLOGY, storeErase conversations sender_id, [req]⟩

/-- The 400 body of `/query` when the guard rejects the request. -/
def QUERY_GUARD_BODY : List (String × String) :=
  [("error", "Debe enviar un JSON con la clave \x27query\x27.")]

/-- Outcome of one `/query` request: HTTP status, JSON body (an object with
string values), the session's `chat_history` key afterwards (`none` when
absent or popped), and the provider requests issued. -/
structure QueryOutcome where
  status : Nat
  body : List (String × String)
  sessionAfter : Option (List Turn)
  genCalls : List GenRequest
deriving DecidableEq

/-- `handle_query` (POST `/query`). `data` is `request.json` (`none` for an
absent or non-JSON body), `sess` the session's `chat_history` key.
`Except.error` is an unhandled Python exception surfacing as the
framework's own 500 (TypeError from `in` on a non-container, AttributeError
from `.get` on a non-dict, `types.Part` validation). -/
def handle_query (cfg : AgentConfig) (gen : GenOracle) (data : Option Json)
    (sess : Option (List Turn)) : Except Unit QueryOutcome :=
  match data with
  | none => .ok ⟨400, QUERY_GUARD_BODY, sess, []⟩
  | some d =>
    if truthy d = false then .ok ⟨400, QUERY_GUARD_BODY, sess, []⟩ else
    match pyContains d "query" with
    | .error _ => .error ()
    | .ok false => .ok ⟨400, QUERY_GUARD_BODY, sess, []⟩
    | .ok true =>
      match pyGetOpt d "query" with
      | .error _ => .error ()
      | .ok uqOpt =>
        let user_query := uqOpt.getD Json.null
        let history_json := sess.getD []
        match partText user_query with
        | .error _ => .error ()
        | .ok utext =>
          let full_contents : List GenContent :=
            history_json.map turnContent ++ [⟨"user", utext⟩]
          let req : GenRequest :=
            ⟨full_contents, [cfg.storeId], "gemini-2.5-flash",
             some SYSTEM_PROMPT_RESERVAS⟩
          match search_file_store gen full_contents [cfg.storeId]
              "gemini-2.5-flash" (some SYSTEM_PROMPT_RESERVAS) with
          | .ok gemini_response_text =>
              .ok ⟨200,
                [("response", gemini_response_text),
                 ("agent_role", "Agente de Reservas del Hotel"),
                 ("status", "Memoria gestionada por la API (cookie de sesión)")],
                some (history_json ++
                  [⟨"user", utext⟩, ⟨"model", some gemini_response_text⟩]),
                [req]⟩
          | .error e =>
              .ok ⟨500,
                [("error", "Ocurrió un error en la API de Gemini."),
                 ("details", e)],
                none, [req]⟩

/-- Outcome of one `/clear` request. -/
structure ClearOutcome where
  status : Nat
  body : List (String × String)
  sessionAfter : Option (List Turn)
deriving DecidableEq

/-- `clear_history` (POST `/clear`): pops `chat_history` and returns 200. -/
def clear_history (_sess : Option (List Turn)) : ClearOutcome :=
  ⟨200, [("status", "Historial de conversación limpiado. Nueva sesión iniciada.")], none⟩

/-- `whatsapp_verify` (GET `/webhook`): pure function of the three query
parameters. `Except.error` is the framework error raised when the view
returns `None` as a body (mode and token match but `hub.challenge` is
absent: `return challenge, 200` with `challenge = None` makes Flask raise
TypeError, surfacing as a 500, not a 403). -/
def whatsapp_verify (cfg : AgentConfig)
    (mode token challenge : Option String) : Except Unit (Nat × String) :=
  if mode == some "subscribe" && token == some cfg.verifyToken then
    match challenge with
    | some c => .ok (200, c)
    | none => .error ()
  else
    .ok (403, "Verification token mismatch")

/-- Mutable state threaded through the webhook's message loop: the
conversation store, the delivery calls already issued (recipient, text),
and the provider requests already issued. -/
structure Wst where
  convs : ConvStore
  deliveries : List (Json × String)
  genCalls : List GenRequest

/-- Fold a fallible step over a list, where an exception carries the state
reached so far (mutations before the raise persist). -/
def foldE (f : Wst → Json → Except Wst Wst) : Wst → List Json → Except Wst Wst
  | st, [] => .ok st
  | st, x :: xs =>
    match f st x with
    | .ok st2 => foldE f st2 xs
    | .error st2 => .error st2

/-- Whether `message.get("type")` equals the string `"text"`. -/
def isTextType : Option Json → Bool
  | some (.str s) => s == "text"
  | _ => false

/-- Body of one message of the webhook loop: extract the sender (skip when
falsy), extract the text body or build the unsupported-type placeholder,
process with the per-sender flow and record one delivery call with the
response. An `Except.error` aborts the whole loop (KeyError on
`message["text"]`, `.get` on a non-dict, `types.Part` validation). -/
def processMessage (cfg : AgentConfig) (gen : GenOracle) (st : Wst)
    (message : Json) : Except Wst Wst :=
  match message with
  | .obj kvs =>
    let sender := (jsonLookup "from" kvs).getD Json.null
    if truthy sender = false then .ok st else
    let mtype := jsonLookup "type" kvs
    let utextE : Except Unit Json :=
      if isTextType mtype then
        match jsonLookup "text" kvs with
        | none => .error ()
        | some t => pyGetD t "body" (Json.str "")
      else
        .ok (.str ("[Tipo de mensaje " ++ pyStrOpt mtype ++ " no soportado por ahora]"))
    match utextE with
    | .error _ => .error st
    | .ok userText =>
      match procesar_con_gemini_for_sender cfg gen st.convs sender userText with
      | .error _ => .error st
      | .ok pr =>
          .ok ⟨pr.convs, st.deliveries ++ [(sender, pr.text)],
               st.genCalls ++ pr.genCalls⟩
  | _ => .error st

/-- One `change` of the webhook loop: `change.get("value", {})`, then
`value.get("messages", []) or []`, then iterate the messages. -/
def processChange (cfg : AgentConfig) (gen : GenOracle) (st : Wst)
    (change : Json) : Except Wst Wst :=
  match pyGetD change "value" (Json.obj []) with
  | .error _ => .error st
  | .ok value =>
    match pyGetD value "messages" (Json.arr []) with
    | .error _ => .error st
    | .ok messagesRaw =>
      let messages := if truthy messagesRaw then messagesRaw else Json.arr []
      match pyIter messages with
      | .error _ => .error st
      | .ok ms => foldE (processMessage cfg gen) st ms

/-- One `entry` of the webhook loop: `entry.get("changes", [])`, then
iterate the changes. -/
def processEntry (cfg : AgentConfig) (gen : GenOracle) (st : Wst)
    (entry : Json) : Except Wst Wst :=
  match pyGetD entry "changes" (Json.arr []) with
  | .error _ => .error st
  | .ok chs =>
    match pyIter chs with
    | .error _ => .error st
    | .ok cs => foldE (processChange cfg gen) st cs

/-- Outcome of one POST `/webhook` request: HTTP status, literal body, the
conversation store afterwards, the delivery calls issued (recipient, text)
and the provider requests issued. -/
structure WebhookResult where
  status : Nat
  body : String
  convs : ConvStore
  deliveries : List (Json × String)
  genCalls : List GenRequest

/-- `whatsapp_webhook` (POST `/webhook`). `payload` is
`request.get_json(silent=True)` (`none` when absent or unparseable). A
falsy payload is rejected with 400 `"no payload"`; an exception inside the
`try` yields 500 `"error"` with the mutations performed so far kept. -/
def whatsapp_webhook (cfg : AgentConfig) (gen : GenOracle)
    (convs0 : ConvStore) (payload : Option Json) : WebhookResult :=
  match payload with
  | none => ⟨400, "no payload", convs0, [], []⟩
  | some p =>
    if truthy p = false then ⟨400, "no payload", convs0, [], []⟩ else
    let st0 : Wst := ⟨convs0, [], []⟩
    let res : Except Wst Wst :=
      match pyGetD p "entry" (Json.arr []) with
      | .error _ => .error st0
      | .ok entriesJ =>
        match pyIter entriesJ with
        | .error _ => .error st0
        | .ok es => foldE (processEntry cfg gen) st0 es
    match res with
    | .ok st => ⟨200, "EVENT_RECEIVED", st.convs, st.deliveries, st.genCalls⟩
    | .error st => ⟨500, "error", st.convs, st.deliveries, st.genCalls⟩

/-- The provider request the `/query` path builds from a session history
and a new user text: bare store id. -/
def queryGenRequest (cfg : AgentConfig) (hist : List Turn)
    (utext : Option String) : GenRequest :=
  ⟨hist.map turnContent ++ [⟨"user", utext⟩], [cfg.storeId],
   "gemini-2.5-flash", some SYSTEM_PROMPT_RESERVAS⟩

/-- The provider request the per-sender webhook path builds from a stored
history and a new user text: store id prefixed with the
`fileSearchStores/` namespace. -/
def senderGenRequest (cfg : AgentConfig) (hist : List Turn)
    (utext : Option String) : GenRequest :=
  ⟨hist.map turnContent ++ [⟨"user", utext⟩],
   ["fileSearchStores/" ++ cfg.storeId],
   "gemini-2.5-flash", some SYSTEM_PROMPT_RESERVAS⟩

/-- A WhatsApp Cloud API text message object. -/
def textMessage (sender body : String) : Json :=
  Json.obj [("from", Json.str sender), ("type", Json.str "text"),
            ("text", Json.obj [("body", Json.str body)])]

/-- The standard event envelope holding exactly one message:
`entry → changes → value → messages`. -/
def singleMessagePayload (sender body : String) : Json :=
  Json.obj [("entry", Json.arr [Json.obj [("changes", Json.arr [Json.obj
    [("value", Json.obj [("messages", Json.arr [textMessage sender body])])]])]])]

/-- The configuration built from the source's environment-variable
defaults. -/
def cfgDefault : AgentConfig :=
  ⟨"hotelknowledgebasestore2-g76jm0ml54f0", "verify123"⟩

/-- A provider that always answers with the fixed text `t`. -/
def constOracle (t : String) : GenOracle :=
  fun _ => .ok t

/-- A provider whose remote call always raises with message `e`. -/
def failOracle (e : String) : GenOracle :=
  fun _ => .error e

theorem jsonBeq_str_self (s : String) : jsonBeq (Json.str s) (Json.str s) = true := by
  simp [jsonBeq]

theorem storeGet_storeErase (st : ConvStore) (k : Json) :
    storeGet (storeErase st k) k = none := by
  induction st with
  | nil => rfl
  | cons e rest ih =>
    obtain ⟨k0, v0⟩ := e
    by_cases h : jsonBeq k0 k = true
    · simp [storeErase, h, ih]
    · simp [storeErase, storeGet, h, ih]

theorem storeSet_eq_append (st : ConvStore) (k : Json) (v : List Turn)
    (h : storeGet st k = none) : storeSet st k v = st ++ [(k, v)] := by
  induction st with
  | nil => rfl
  | cons e rest ih =>
    obtain ⟨k0, v0⟩ := e
    by_cases hk : jsonBeq k0 k = true
    · simp [storeGet, hk] at h
    · simp [storeGet, hk] at h
      simp [storeSet, hk, ih h]

theorem storeGet_append_self (st : ConvStore) (k : Json) (v : List Turn)
    (hk : jsonBeq k k = true) (h : storeGet st k = none) :
    storeGet (st ++ [(k, v)]) k = some v := by
  induction st with
  | nil => simp [storeGet, hk]
  | cons e rest ih =>
    obtain ⟨k0, v0⟩ := e
    by_cases hx : jsonBeq k0 k = true
    · simp [storeGet, hx] at h
    · simp [storeGet, hx] at h ⊢
      exact ih h

theorem storeCount_eq_zero (st : ConvStore) (k : Json)
    (h : storeGet st k = none) : storeCount st k = 0 := by
  induction st with
  | nil => rfl
  | cons e rest ih =>
    obtain ⟨k0, v0⟩ := e
    by_cases hx : jsonBeq k0 k = true
    · simp [storeGet, hx] at h
    · simp [storeGet, hx] at h
      simp [storeCount, hx, ih h]

theorem storeCount_append_self (st : ConvStore) (k : Json) (v : List Turn)
    (hk : jsonBeq k k = true) :
    storeCount (st ++ [(k, v)]) k = storeCount st k + 1 := by
  induction st with
  | nil => simp [storeCount, hk]
  | cons e rest ih =>
    obtain ⟨k0, v0⟩ := e
    simp only [List.cons_append, storeCount, List.append_eq]
    rw [ih]
    omega

/-- Claim C1: for a POST `/query` body that is a JSON object carrying a
`query` field, if the provider call succeeds with text `t` then the handler
returns 200 with a body whose `response` field holds `t`, and the session's
chat history is the previous history with exactly the user turn and then
the model turn appended. -/
theorem handle_query_success_ok (cfg : AgentConfig) (gen : GenOracle)
    (rest : List (String × Json)) (qv : Json) (utext : Option String)
    (t : String) (hist : List Turn)
    (hpart : partText qv = .ok utext)
    (hgen : gen (queryGenRequest cfg hist utext) = .ok t) :
    handle_query cfg gen (some (Json.obj (("query", qv) :: rest))) (some hist)
      = .ok ⟨200,
          [("response", t), ("agent_role", "Agente de Reservas del Hotel"),
           ("status", "Memoria gestionada por la API (cookie de sesión)")],
          some (hist ++ [⟨"user", utext⟩, ⟨"model", some t⟩]),
          [queryGenRequest cfg hist utext]⟩ := by
  simp only [queryGenRequest] at hgen
  simp [handle_query, truthy, pyContains, pyGetOpt, jsonLookup, hpart,
        search_file_store, queryGenRequest, hgen]

/-- Witness for C1 at a concrete input. -/
theorem handle_query_success_ok_witness :
    partText (Json.str "hola") = .ok (some "hola")
    ∧ (constOracle "RESP") (queryGenRequest cfgDefault [] (some "hola")) = .ok "RESP"
    ∧ handle_query cfgDefault (constOracle "RESP")
        (some (Json.obj [("query", Json.str "hola")])) (some [])
      = .ok ⟨200,
          [("response", "RESP"), ("agent_role", "Agente de Reservas del Hotel"),
           ("status", "Memoria gestionada por la API (cookie de sesión)")],
          some [⟨"user", some "hola"⟩, ⟨"model", some "RESP"⟩],
          [queryGenRequest cfgDefault [] (some "hola")]⟩ :=
  ⟨rfl, rfl,
   handle_query_success_ok cfgDefault (constOracle "RESP") [] (Json.str "hola")
     (some "hola") "RESP" [] rfl rfl⟩

/-- Claim C2: for a POST `/query` request that reaches the provider, if the
provider call raises then the session's chat history is removed entirely
(`sessionAfter = none`, not a partial history) and the handler returns 500
with a body carrying `error` and `details` fields. -/
theorem handle_query_provider_failure (cfg : AgentConfig) (gen : GenOracle)
    (rest : List (String × Json)) (qv : Json) (utext : Option String)
    (e : String) (hist : List Turn)
    (hpart : partText qv = .ok utext)
    (hgen : gen (queryGenRequest cfg hist utext) = .error e) :
    handle_query cfg gen (some (Json.obj (("query", qv) :: rest))) (some hist)
      = .ok ⟨500,
          [("error", "Ocurrió un error en la API de Gemini."), ("details", e)],
          none,
          [queryGenRequest cfg hist utext]⟩ := by
  simp only [queryGenRequest] at hgen
  simp [handle_query, truthy, pyContains, pyGetOpt, jsonLookup, hpart,
        search_file_store, queryGenRequest, hgen]

/-- Witness for C2 at a concrete input. -/
theorem handle_query_provider_failure_witness :
    partText (Json.str "hola") = .ok (some "hola")
    ∧ (failOracle "boom") (queryGenRequest cfgDefault [⟨"user", some "a"⟩] (some "hola")) = .error "boom"
    ∧ handle_query cfgDefault (failOracle "boom")
        (some (Json.obj [("query", Json.str "hola")])) (some [⟨"user", some "a"⟩])
      = .ok ⟨500,
          [("error", "Ocurrió un error en la API de Gemini."), ("details", "boom")],
          none,
          [queryGenRequest cfgDefault [⟨"user", some "a"⟩] (some "hola")]⟩ :=
  ⟨rfl, rfl,
   handle_query_provider_failure cfgDefault (failOracle "boom") [] (Json.str "hola")
     (some "hola") "boom" [⟨"user", some "a"⟩] rfl rfl⟩

/-- Counterexample to claim C3: a body whose `query` field is the empty
string is NOT rejected: with an always-succeeding provider the handler
returns 200 and one provider call is made, not 400 with none. -/
theorem handle_query_empty_query_counterexample :
    (handle_query cfgDefault (constOracle "ok")
        (some (Json.obj [("query", Json.str "")])) none).map
        (fun o => (o.status, o.genCalls.length)) = .ok (200, 1)
    ∧ ¬ ((handle_query cfgDefault (constOracle "ok")
        (some (Json.obj [("query", Json.str "")])) none).map
        (fun o => (o.status, o.genCalls.length)) = .ok (400, 0)) :=
  ⟨rfl, by
    intro hc
    have h1 : (handle_query cfgDefault (constOracle "ok")
        (some (Json.obj [("query", Json.str "")])) none).map
        (fun o => (o.status, o.genCalls.length))
        = (Except.ok ((200 : Nat), (1 : Nat)) : Except Unit (Nat × Nat)) := rfl
    rw [h1] at hc
    exact absurd (Except.ok.inj hc) (by simp)⟩

/-- Claim C3 as amended: the handler returns 400 (and issues no provider
call) when the body is absent or when the (object) body lacks the `query`
key — which covers the empty object, since a falsy body is also rejected —
but a body whose `query` field is the empty string passes the guard and
the provider is called with the empty user text. -/
theorem handle_query_reject_amended (cfg : AgentConfig) (gen : GenOracle)
    (sess : Option (List Turn)) (kvs : List (String × Json))
    (hmiss : kvs.any (fun kv => kv.1 == "query") = false) :
    handle_query cfg gen none sess = .ok ⟨400, QUERY_GUARD_BODY, sess, []⟩
    ∧ handle_query cfg gen (some (Json.obj kvs)) sess
        = .ok ⟨400, QUERY_GUARD_BODY, sess, []⟩
    ∧ (handle_query cfg gen (some (Json.obj [("query", Json.str "")])) sess).map
        (fun o => o.genCalls)
        = .ok [queryGenRequest cfg (sess.getD []) (some "")] := by
  refine ⟨rfl, ?_, ?_⟩
  · match kvs with
    | [] => simp [handle_query, truthy]
    | kv :: rest =>
      simp [handle_query, truthy, pyContains, hmiss]
  · rcases h : gen (queryGenRequest cfg (sess.getD []) (some "")) with e | t <;>
    · simp only [queryGenRequest] at h
      simp [handle_query, truthy, pyContains, pyGetOpt, jsonLookup, partText,
            search_file_store, queryGenRequest, h, Except.map]

/-- Witness for the amended C3 at a concrete input. -/
theorem handle_query_reject_amended_witness :
    [(("other" : String), Json.null)].any (fun kv => kv.1 == "query") = false
    ∧ (handle_query cfgDefault (constOracle "ok") none none
        = .ok ⟨400, QUERY_GUARD_BODY, none, []⟩
      ∧ handle_query cfgDefault (constOracle "ok")
          (some (Json.obj [("other", Json.null)])) none
          = .ok ⟨400, QUERY_GUARD_BODY, none, []⟩
      ∧ (handle_query cfgDefault (constOracle "ok")
          (some (Json.obj [("query", Json.str "")])) none).map
          (fun o => o.genCalls)
          = .ok [queryGenRequest cfgDefault [] (some "")]) :=
  ⟨rfl,
   handle_query_reject_amended cfgDefault (constOracle "ok") none
     [("other", Json.null)] rfl⟩

theorem storeGet_storeSet_self (st : ConvStore) (k : Json) (v : List Turn)
    (hk : jsonBeq k k = true) :
    storeGet (storeSet st k v) k = some v := by
  induction st with
  | nil => simp [storeSet, storeGet, hk]
  | cons e rest ih =>
    obtain ⟨k0, v0⟩ := e
    by_cases hx : jsonBeq k0 k = true
    · simp [storeSet, storeGet, hx]
    · simp [storeSet, storeGet, hx, ih]

/-- Claim C4: when the generation call inside the per-sender flow raises,
the sender's conversation entry is removed from the store (absent
afterwards, whatever it held before), the generic apology is returned
instead of the exception propagating, and the POST `/webhook` handler for a
payload carrying that message still returns 200 `EVENT_RECEIVED` (the
apology is what gets delivered). -/
theorem sender_failure_discards_and_webhook_ok
    (cfg : AgentConfig) (gen : GenOracle) (convs : ConvStore)
    (sender body e : String) (hs : sender ≠ "")
    (hgen : gen (senderGenRequest cfg
        ((storeGet convs (Json.str sender)).getD []) (some body)) = .error e) :
    procesar_con_gemini_for_sender cfg gen convs (Json.str sender) (Json.str body)
      = .ok ⟨APOLOGY, storeErase convs (Json.str sender),
             [senderGenRequest cfg
               ((storeGet convs (Json.str sender)).getD []) (some body)]⟩
    ∧ storeGet (storeErase convs (Json.str sender)) (Json.str sender) = none
    ∧ whatsapp_webhook cfg gen convs (some (singleMessagePayload sender body))
      = ⟨200, "EVENT_RECEIVED", storeErase convs (Json.str sender),
         [(Json.str sender, APOLOGY)],
         [senderGenRequest cfg
           ((storeGet convs (Json.str sender)).getD []) (some body)]⟩ := by
  have hse : (sender == "") = false := beq_eq_false_iff_ne.mpr hs
  simp only [senderGenRequest] at hgen
  have hproc : procesar_con_gemini_for_sender cfg gen convs (Json.str sender) (Json.str body)
      = .ok ⟨APOLOGY, storeErase convs (Json.str sender),
             [senderGenRequest cfg
               ((storeGet convs (Json.str sender)).getD []) (some body)]⟩ := by
    simp [procesar_con_gemini_for_sender, jsonHashable, partText,
          search_file_store, senderGenRequest, hgen]
  refine ⟨hproc, storeGet_storeErase convs _, ?_⟩
  simp [whatsapp_webhook, singleMessagePayload, textMessage, truthy, pyGetD,
        pyIter, jsonLookup, foldE, processEntry, processChange, processMessage,
        isTextType, hse, hproc]

/-- Witness for C4 at a concrete input. -/
theorem sender_failure_discards_and_webhook_ok_witness :
    ("519111" : String) ≠ ""
    ∧ (failOracle "boom") (senderGenRequest cfgDefault
        ((storeGet [(Json.str "519111", [⟨"user", some "x"⟩])] (Json.str "519111")).getD [])
        (some "hola")) = .error "boom"
    ∧ (procesar_con_gemini_for_sender cfgDefault (failOracle "boom")
        [(Json.str "519111", [⟨"user", some "x"⟩])] (Json.str "519111") (Json.str "hola")
      = .ok ⟨APOLOGY,
             storeErase [(Json.str "519111", [⟨"user", some "x"⟩])] (Json.str "519111"),
             [senderGenRequest cfgDefault
               ((storeGet [(Json.str "519111", [⟨"user", some "x"⟩])] (Json.str "519111")).getD [])
               (some "hola")]⟩
    ∧ storeGet (storeErase [(Json.str "519111", [⟨"user", some "x"⟩])] (Json.str "519111"))
        (Json.str "519111") = none
    ∧ whatsapp_webhook cfgDefault (failOracle "boom")
        [(Json.str "519111", [⟨"user", some "x"⟩])]
        (some (singleMessagePayload "519111" "hola"))
      = ⟨200, "EVENT_RECEIVED",
         storeErase [(Json.str "519111", [⟨"user", some "x"⟩])] (Json.str "519111"),
         [(Json.str "519111", APOLOGY)],
         [senderGenRequest cfgDefault
           ((storeGet [(Json.str "519111", [⟨"user", some "x"⟩])] (Json.str "519111")).getD [])
           (some "hola")]⟩) :=
  ⟨by decide, rfl,
   sender_failure_discards_and_webhook_ok cfgDefault (failOracle "boom")
     [(Json.str "519111", [⟨"user", some "x"⟩])] "519111" "hola" "boom"
     (by decide) rfl⟩

/-- Claim C5: a POST `/webhook` payload with exactly one text message from
a sender with no existing conversation entry, with a succeeding provider,
leaves the store with exactly one entry for that sender holding exactly the
user turn (message body) followed by the model turn (provider text), and
issues exactly one delivery call, addressed to that sender. -/
theorem webhook_new_sender_two_turns_one_delivery
    (cfg : AgentConfig) (gen : GenOracle) (convs0 : ConvStore)
    (sender body t : String) (hs : sender ≠ "")
    (hnew : storeGet convs0 (Json.str sender) = none)
    (hgen : gen (senderGenRequest cfg [] (some body)) = .ok t) :
    whatsapp_webhook cfg gen convs0 (some (singleMessagePayload sender body))
      = ⟨200, "EVENT_RECEIVED",
         convs0 ++ [(Json.str sender, [⟨"user", some body⟩, ⟨"model", some t⟩])],
         [(Json.str sender, t)], [senderGenRequest cfg [] (some body)]⟩
    ∧ storeGet (convs0 ++ [(Json.str sender, [⟨"user", some body⟩, ⟨"model", some t⟩])])
        (Json.str sender) = some [⟨"user", some body⟩, ⟨"model", some t⟩]
    ∧ storeCount (convs0 ++ [(Json.str sender, [⟨"user", some body⟩, ⟨"model", some t⟩])])
        (Json.str sender) = 1 := by
  have hse : (sender == "") = false := beq_eq_false_iff_ne.mpr hs
  simp only [senderGenRequest, List.map_nil, List.nil_append] at hgen
  have hset := storeSet_eq_append convs0 (Json.str sender)
    [⟨"user", some body⟩, ⟨"model", some t⟩] hnew
  have hproc : procesar_con_gemini_for_sender cfg gen convs0 (Json.str sender) (Json.str body)
      = .ok ⟨t, convs0 ++ [(Json.str sender, [⟨"user", some body⟩, ⟨"model", some t⟩])],
             [senderGenRequest cfg [] (some body)]⟩ := by
    simp [procesar_con_gemini_for_sender, jsonHashable, partText,
          search_file_store, senderGenRequest, hgen, hnew, hset]
  refine ⟨?_, ?_, ?_⟩
  · simp [whatsapp_webhook, singleMessagePayload, textMessage, truthy, pyGetD,
          pyIter, jsonLookup, foldE, processEntry, processChange, processMessage,
          isTextType, hse, hproc]
  · exact storeGet_append_self convs0 (Json.str sender) _
      (jsonBeq_str_self sender) hnew
  · rw [storeCount_append_self convs0 (Json.str sender) _ (jsonBeq_str_self sender),
        storeCount_eq_zero convs0 (Json.str sender) hnew]

/-- Witness for C5 at a concrete input. -/
theorem webhook_new_sender_two_turns_one_delivery_witness :
    ("519111" : String) ≠ ""
    ∧ storeGet ([] : ConvStore) (Json.str "519111") = none
    ∧ (constOracle "RESP") (senderGenRequest cfgDefault [] (some "hola")) = .ok "RESP"
    ∧ (whatsapp_webhook cfgDefault (constOracle "RESP") []
        (some (singleMessagePayload "519111" "hola"))
      = ⟨200, "EVENT_RECEIVED",
         [(Json.str "519111", [⟨"user", some "hola"⟩, ⟨"model", some "RESP"⟩])],
         [(Json.str "519111", "RESP")], [senderGenRequest cfgDefault [] (some "hola")]⟩
    ∧ storeGet [(Json.str "519111", [⟨"user", some "hola"⟩, ⟨"model", some "RESP"⟩])]
        (Json.str "519111") = some [⟨"user", some "hola"⟩, ⟨"model", some "RESP"⟩]
    ∧ storeCount [(Json.str "519111", [⟨"user", some "hola"⟩, ⟨"model", some "RESP"⟩])]
        (Json.str "519111") = 1) :=
  ⟨by decide, rfl, rfl,
   webhook_new_sender_two_turns_one_delivery cfgDefault (constOracle "RESP") []
     "519111" "hola" "RESP" (by decide) rfl rfl⟩

/-- Claim C6: for the same configured knowledge-base id and the same
history and user text, the manual `/query` path issues a provider request
whose store names are the bare id, while the per-sender path issues one
whose store names carry the `fileSearchStores/` namespace; the two
requests agree on contents, model and system instruction, and on success
both paths append the same two turns to their history. -/
theorem store_name_discrepancy (cfg : AgentConfig) (gen gen2 : GenOracle)
    (convs : ConvStore) (sender q t : String) (hist : List Turn)
    (hsh : storeGet convs (Json.str sender) = some hist) :
    (handle_query cfg gen (some (Json.obj [("query", Json.str q)])) (some hist)).map
        QueryOutcome.genCalls = .ok [queryGenRequest cfg hist (some q)]
    ∧ (procesar_con_gemini_for_sender cfg gen2 convs (Json.str sender) (Json.str q)).map
        ProcResult.genCalls = .ok [senderGenRequest cfg hist (some q)]
    ∧ (queryGenRequest cfg hist (some q)).contents
        = (senderGenRequest cfg hist (some q)).contents
    ∧ (queryGenRequest cfg hist (some q)).model
        = (senderGenRequest cfg hist (some q)).model
    ∧ (queryGenRequest cfg hist (some q)).systemInstruction
        = (senderGenRequest cfg hist (some q)).systemInstruction
    ∧ (queryGenRequest cfg hist (some q)).storeNames = [cfg.storeId]
    ∧ (senderGenRequest cfg hist (some q)).storeNames
        = ["fileSearchStores/" ++ cfg.storeId]
    ∧ (handle_query cfg (constOracle t) (some (Json.obj [("query", Json.str q)])) (some hist)).map
        QueryOutcome.sessionAfter
        = .ok (some (hist ++ [⟨"user", some q⟩, ⟨"model", some t⟩]))
    ∧ (procesar_con_gemini_for_sender cfg (constOracle t) convs (Json.str sender) (Json.str q)).map
        (fun p => storeGet p.convs (Json.str sender))
        = .ok (some (hist ++ [⟨"user", some q⟩, ⟨"model", some t⟩])) := by
  refine ⟨?_, ?_, rfl, rfl, rfl, rfl, rfl, ?_, ?_⟩
  · rcases h : gen (queryGenRequest cfg hist (some q)) with e | s <;>
    · simp only [queryGenRequest] at h
      simp [handle_query, truthy, pyContains, pyGetOpt, jsonLookup, partText,
            search_file_store, queryGenRequest, h, Except.map]
  · rcases h : gen2 (senderGenRequest cfg hist (some q)) with e | s <;>
    · simp only [senderGenRequest] at h
      simp [procesar_con_gemini_for_sender, jsonHashable, partText,
            search_file_store, senderGenRequest, hsh, h, Except.map]
  · simp [handle_query, truthy, pyContains, pyGetOpt, jsonLookup, partText,
          search_file_store, constOracle, Except.map]
  · simp [procesar_con_gemini_for_sender, jsonHashable, partText,
          search_file_store, constOracle, hsh, Except.map,
          storeGet_storeSet_self convs (Json.str sender) _ (jsonBeq_str_self sender)]

/-- Witness for C6 at a concrete input. -/
theorem store_name_discrepancy_witness :
    storeGet [(Json.str "s1", [⟨"user", some "a"⟩])] (Json.str "s1") = some [⟨"user", some "a"⟩]
    ∧ ((handle_query cfgDefault (constOracle "X")
        (some (Json.obj [("query", Json.str "q")])) (some [⟨"user", some "a"⟩])).map
        QueryOutcome.genCalls = .ok [queryGenRequest cfgDefault [⟨"user", some "a"⟩] (some "q")]
      ∧ (procesar_con_gemini_for_sender cfgDefault (constOracle "Y")
        [(Json.str "s1", [⟨"user", some "a"⟩])] (Json.str "s1") (Json.str "q")).map
        ProcResult.genCalls = .ok [senderGenRequest cfgDefault [⟨"user", some "a"⟩] (some "q")]
      ∧ (queryGenRequest cfgDefault [⟨"user", some "a"⟩] (some "q")).contents
          = (senderGenRequest cfgDefault [⟨"user", some "a"⟩] (some "q")).contents
      ∧ (queryGenRequest cfgDefault [⟨"user", some "a"⟩] (some "q")).model
          = (senderGenRequest cfgDefault [⟨"user", some "a"⟩] (some "q")).model
      ∧ (queryGenRequest cfgDefault [⟨"user", some "a"⟩] (some "q")).systemInstruction
          = (senderGenRequest cfgDefault [⟨"user", some "a"⟩] (some "q")).systemInstruction
      ∧ (queryGenRequest cfgDefault [⟨"user", some "a"⟩] (some "q")).storeNames
          = [cfgDefault.storeId]
      ∧ (senderGenRequest cfgDefault [⟨"user", some "a"⟩] (some "q")).storeNames
          = ["fileSearchStores/" ++ cfgDefault.storeId]
      ∧ (handle_query cfgDefault (constOracle "Z")
          (some (Json.obj [("query", Json.str "q")])) (some [⟨"user", some "a"⟩])).map
          QueryOutcome.sessionAfter
          = .ok (some ([⟨"user", some "a"⟩] ++ [⟨"user", some "q"⟩, ⟨"model", some "Z"⟩]))
      ∧ (procesar_con_gemini_for_sender cfgDefault (constOracle "Z")
          [(Json.str "s1", [⟨"user", some "a"⟩])] (Json.str "s1") (Json.str "q")).map
          (fun p => storeGet p.convs (Json.str "s1"))
          = .ok (some ([⟨"user", some "a"⟩] ++ [⟨"user", some "q"⟩, ⟨"model", some "Z"⟩]))) :=
  ⟨rfl,
   store_name_discrepancy cfgDefault (constOracle "X") (constOracle "Y")
     [(Json.str "s1", [⟨"user", some "a"⟩])] "s1" "q" "Z" [⟨"user", some "a"⟩] rfl⟩

/-- Counterexample to claim C7: with mode `subscribe`, the correct verify
token and NO `hub.challenge` parameter, the view executes
`return challenge, 200` with `challenge = None`, which is not a valid Flask
response body: the framework raises (a 500), so the handler neither echoes
a challenge with 200 nor returns 403, contradicting "in every other case it
returns status 403". -/
theorem whatsapp_verify_missing_challenge_counterexample :
    whatsapp_verify cfgDefault (some "subscribe") (some "verify123") none = .error ()
    ∧ whatsapp_verify cfgDefault (some "subscribe") (some "verify123") none
        ≠ .ok (403, "Verification token mismatch") := by
  refine ⟨rfl, ?_⟩
  intro hc
  have h0 : whatsapp_verify cfgDefault (some "subscribe") (some "verify123") none
      = Except.error () := rfl
  rw [h0] at hc
  exact Except.noConfusion hc

/-- Claim C7 as amended: the GET `/webhook` handler echoes the literal
challenge `c` with status 200 exactly when mode is `subscribe`, the token
matches the configured verify token, and a challenge parameter is present
with value `c`; any mode or token mismatch yields 403 with the literal
mismatch message; but when mode and token match and the challenge parameter
is absent, the view returns `None` as a body and the framework errors (it
does not return 403). The handler takes no state and performs no writes. -/
theorem whatsapp_verify_amended (cfg : AgentConfig)
    (mode token challenge : Option String) :
    (∀ c : String, whatsapp_verify cfg mode token challenge = .ok (200, c) ↔
        (mode = some "subscribe" ∧ token = some cfg.verifyToken ∧ challenge = some c))
    ∧ ((mode ≠ some "subscribe" ∨ token ≠ some cfg.verifyToken) →
        whatsapp_verify cfg mode token challenge
          = .ok (403, "Verification token mismatch"))
    ∧ ((mode = some "subscribe" ∧ token = some cfg.verifyToken ∧ challenge = none) →
        whatsapp_verify cfg mode token challenge = .error ()) := by
  refine ⟨?_, ?_, ?_⟩
  · intro c
    constructor
    · intro h
      by_cases hm : mode == some "subscribe" && token == some cfg.verifyToken
      · rcases Bool.and_eq_true_iff.mp hm with ⟨hm1, hm2⟩
        refine ⟨eq_of_beq hm1, eq_of_beq hm2, ?_⟩
        rcases challenge with _ | c2
        · simp [whatsapp_verify, hm] at h
        · simp [whatsapp_verify, hm] at h
          simp [h]
      · simp [whatsapp_verify, Bool.eq_false_iff.mpr hm] at h
    · rintro ⟨hm, ht, hc⟩
      simp [whatsapp_verify, hm, ht, hc]
  · intro h
    have hm : (mode == some "subscribe" && token == some cfg.verifyToken) = false := by
      rcases h with h | h
      · simp [beq_eq_false_iff_ne.mpr h]
      · simp [beq_eq_false_iff_ne.mpr h]
    simp [whatsapp_verify, hm]
  · rintro ⟨hm, ht, hc⟩
    simp [whatsapp_verify, hm, ht, hc]

/-- Witness for the amended C7 at concrete inputs: the 200-echo case and a
403 mismatch case. -/
theorem whatsapp_verify_amended_witness :
    whatsapp_verify cfgDefault (some "subscribe") (some "verify123") (some "ch")
      = .ok (200, "ch")
    ∧ whatsapp_verify cfgDefault (some "bad") (some "verify123") (some "ch")
      = .ok (403, "Verification token mismatch") :=
  ⟨((whatsapp_verify_amended cfgDefault (some "subscribe") (some "verify123")
      (some "ch")).1 "ch").mpr ⟨rfl, rfl, rfl⟩,
   (whatsapp_verify_amended cfgDefault (some "bad") (some "verify123")
      (some "ch")).2.1 (Or.inl (by simp))⟩

/-- Claim C8: a POST `/webhook` request with no JSON body returns 400 with
the literal body `no payload`, with the conversation store unchanged and no
delivery or provider call issued. -/
theorem webhook_absent_body_no_payload (cfg : AgentConfig) (gen : GenOracle)
    (convs : ConvStore) :
    whatsapp_webhook cfg gen convs none = ⟨400, "no payload", convs, [], []⟩ :=
  rfl

/-- Claim C9: POST `/clear` always returns 200 (idempotent, identical on
any prior session including none) and removes the session history, and a
`/query` issued on the cleared session builds its provider request from the
empty history: the contents are exactly the one new user block. -/
theorem clear_history_idempotent_and_fresh_query (cfg : AgentConfig)
    (gen : GenOracle) (s1 s2 : Option (List Turn)) (q : String) :
    (clear_history s1).status = 200
    ∧ (clear_history s1).sessionAfter = none
    ∧ clear_history s1 = clear_history s2
    ∧ clear_history ((clear_history s1).sessionAfter) = clear_history s1
    ∧ (handle_query cfg gen (some (Json.obj [("query", Json.str q)]))
        (clear_history s1).sessionAfter).map QueryOutcome.genCalls
        = .ok [queryGenRequest cfg [] (some q)] := by
  refine ⟨rfl, rfl, rfl, rfl, ?_⟩
  rcases h : gen (queryGenRequest cfg [] (some q)) with e | t <;>
  · simp only [queryGenRequest, List.map_nil, List.nil_append] at h
    simp [handle_query, clear_history, truthy, pyContains, pyGetOpt,
          jsonLookup, partText, search_file_store, queryGenRequest, h,
          Except.map]

/-- Claim C10: a POST `/webhook` body that parses to any falsy JSON value
is rejected exactly like an absent body: 400 with body `no payload`, store
untouched, nothing sent — the guard is a truthiness check on the parsed
value. -/
theorem webhook_falsy_payload_no_payload (cfg : AgentConfig)
    (gen : GenOracle) (convs : ConvStore) (j : Json)
    (hf : truthy j = false) :
    whatsapp_webhook cfg gen convs (some j) = ⟨400, "no payload", convs, [], []⟩ := by
  simp [whatsapp_webhook, hf]

/-- Witness for C10 at the five falsy values named by the claim: the empty
object, the empty array, null, false and 0. -/
theorem webhook_falsy_payload_no_payload_witness :
    (truthy (Json.obj []) = false
      ∧ whatsapp_webhook cfgDefault (constOracle "ok") [] (some (Json.obj []))
        = ⟨400, "no payload", [], [], []⟩)
    ∧ (truthy (Json.arr []) = false
      ∧ whatsapp_webhook cfgDefault (constOracle "ok") [] (some (Json.arr []))
        = ⟨400, "no payload", [], [], []⟩)
    ∧ (truthy Json.null = false
      ∧ whatsapp_webhook cfgDefault (constOracle "ok") [] (some Json.null)
        = ⟨400, "no payload", [], [], []⟩)
    ∧ (truthy (Json.bool false) = false
      ∧ whatsapp_webhook cfgDefault (constOracle "ok") [] (some (Json.bool false))
        = ⟨400, "no payload", [], [], []⟩)
    ∧ (truthy (Json.num 0) = false
      ∧ whatsapp_webhook cfgDefault (constOracle "ok") [] (some (Json.num 0))
        = ⟨400, "no payload", [], [], []⟩) :=
  ⟨⟨rfl, webhook_falsy_payload_no_payload cfgDefault (constOracle "ok") [] (Json.obj []) rfl⟩,
   ⟨rfl, webhook_falsy_payload_no_payload cfgDefault (constOracle "ok") [] (Json.arr []) rfl⟩,
   ⟨rfl, webhook_falsy_payload_no_payload cfgDefault (constOracle "ok") [] Json.null rfl⟩,
   ⟨rfl, webhook_falsy_payload_no_payload cfgDefault (constOracle "ok") [] (Json.bool false) rfl⟩,
   ⟨rfl, webhook_falsy_payload_no_payload cfgDefault (constOracle "ok") [] (Json.num 0) rfl⟩⟩

end Webhook3
